import Mathlib

/-!
Shallow embedding of the `conworld` text-adventure engine (Python sources in
`src/`). Items, containers, rooms and the player are identified by reference
in the source; here items and rooms carry natural-number identities that index
into the world state's lists. Mutation is explicit state passing: an operation
maps a `WorldState` to a new `WorldState` together with the list of strings it
echoes, in emission order. Python exceptions (a `raise`, or a call on `None`)
are modelled by `Option`/failure results. Recursive walks over the containment
graph (a container propagates `room`/`player` changes to its contents) use a
fuel parameter; the fuel passed at every call site, `itemFuel`, exceeds the
number of items, which bounds the depth of any acyclic containment chain.
-/

namespace Conworld

/-- Package-level direction list (src/__init__.py, `DIRECTIONS`). -/
def DIRECTIONS : List String := ["north", "south", "east", "west", "up", "down"]

/-- Direction synonym table (src/__init__.py, `DIRECTION_SYNONYMS`). -/
def DIRECTION_SYNONYMS : List (String × String) :=
  [("n", "north"), ("northward", "north"), ("northwards", "north"),
   ("s", "south"), ("southward", "south"), ("southwards", "south"),
   ("e", "east"), ("eastward", "east"), ("eastwards", "east"),
   ("w", "west"), ("westward", "west"), ("westwards", "west"),
   ("u", "up"), ("upward", "up"), ("upwards", "up"),
   ("d", "down"), ("downward", "down"), ("downwards", "down")]

/-- Default stopword list (src/__init__.py, `STOPWORDS`). -/
def STOPWORDS : List String :=
  ["the", "a", "on", "in", "inside", "at", "to", "room", "around"]

/-- Embedding of `enumerate_items` (src/__init__.py lines 30-47): for more
than one name, every name up to `items[:-2]` followed by a comma and a space,
then `items[-2]`, a space, and "and " with the last name; for one name the
bare name; otherwise the empty string. -/
def enumerate_items (items : List String) : String :=
  if items.length > 1 then
    String.join ((items.dropLast.dropLast).map (fun s => s ++ ", "))
      ++ (items.getD (items.length - 2) "" ++ " ")
      ++ ("and " ++ items.getLastD "")
  else if items.length = 1 then items.headD ""
  else ""

/-! ## Input preprocessing (src/command.py, `Command._preprocess`) -/

/-- Code points of the characters listed singly in the punctuation class of
`re.sub(r"[`~!@#$%^&*()-=_+,./<>?;':\"\[\]{}\|]", "", result)`
(command.py line 40): backtick 96, tilde 126, bang 33, at 64, hash 35,
dollar 36, percent 37, caret 94, ampersand 38, star 42, parens 40 41,
underscore 95, plus 43, comma 44, dot 46, slash 47, angle brackets 60 62,
question 63, semicolon 59, apostrophe 39, colon 58, double quote 34,
square brackets 91 93, braces 123 125, pipe 124. The backslashes in the
class are regex escapes for the quote, the square brackets and the pipe —
no literal backslash is stripped. -/
def strippedPunctCodes : List Nat :=
  [96, 126, 33, 64, 35, 36, 37, 94, 38, 42, 40, 41, 95, 43, 44, 46, 47,
   60, 62, 63, 59, 39, 58, 34, 91, 93, 123, 125, 124]

/-- Whether `Command._preprocess` strips the character. Inside the class the
fragment `)-=` is a range, so every code point from 41 (right paren) to 61
(equals sign) is stripped as well — including the digits 0-9. -/
def isStrippedPunct (c : Char) : Bool :=
  strippedPunctCodes.contains c.toNat || (41 ≤ c.toNat && c.toNat ≤ 61)

/-- One step of `re.sub(r"[\s]{2,}", " ", result)` on a character list: every
maximal run of two or more whitespace characters becomes one space; a lone
whitespace character is kept as it is. -/
def squeezeWhitespace : List Char → List Char
  | [] => []
  | [c] => [c]
  | c :: d :: rest =>
    if c.isWhitespace && d.isWhitespace then squeezeWhitespace (' ' :: rest)
    else c :: squeezeWhitespace (d :: rest)
termination_by cs => cs.length
decreasing_by all_goals simp [List.length_cons]

/-- Embedding of `Command._preprocess` (command.py lines 31-49): lowercase,
strip the punctuation class, split on whitespace dropping empty tokens
(Python `str.split()`), drop stopwords, rejoin with single spaces, strip
leading/trailing whitespace, collapse remaining whitespace runs. -/
def preprocess (stopwords : List String) (input : String) : String :=
  let result := input.toLower
  let result := String.mk (result.data.filter (fun c => !isStrippedPunct c))
  let words := (result.split Char.isWhitespace).filter (fun w => !w.isEmpty)
  let words := words.filter (fun w => !stopwords.contains w)
  let result := " ".intercalate words
  let result := result.trim
  String.mk (squeezeWhitespace result.data)

/-! ## Data model

Items (plain items and containers live in one record; `container = true`
marks a `Container`) and rooms are stored in lists; an entity's identity is
its index. The single player of a `World` is inlined into the state:
`playerLocation` embeds `Player.location`, `playerInventory` embeds
`Player._inventory`, and an item's `player` field — `Item._player`, the
player owning it or `None` — becomes a `Bool`. -/

/-- A path as built by `Room.add_path` (src/room.py lines 10-101, 289-300). -/
structure PathData where
  name : String
  destination : Nat
  blocked : Bool
  verb_blocked : String
  verb_unblocked : String
deriving Repr, DecidableEq

/-- The mutable fields of `Item`/`Container` (src/item.py). For a plain item
the container-only fields `items`, `opened`, `locked` are unused (`Item` has
no such attributes); `container = false` keeps every operation away from
them, mirroring the dynamic dispatch on the object's class. -/
structure ItemData where
  name : String
  synonyms : List String
  description : String
  inventory : Bool
  containable : Bool
  container : Bool
  items : List Nat
  opened : Bool
  locked : Bool
  owner : Option Nat
  room : Option Nat
  player : Bool
deriving Repr, DecidableEq

/-- The mutable fields of `Room` (src/room.py). `paths` is the association
list of the directions on which `add_path` installed a path; a direction
absent from it embeds `self._paths[direction] == None`. -/
structure RoomData where
  name : String
  description : String
  items : List Nat
  paths : List (String × PathData)
deriving Repr, DecidableEq

/-- The full world state: the item and room stores, and the player. -/
structure WorldState where
  items : List ItemData
  rooms : List RoomData
  playerLocation : Nat
  playerInventory : List Nat
deriving Repr, DecidableEq

/-- Read an item reference. -/
def getItem (ws : WorldState) (i : Nat) : Option ItemData := ws.items.get? i

/-- Read a room reference. -/
def getRoom (ws : WorldState) (r : Nat) : Option RoomData := ws.rooms.get? r

/-- Update the entry at index `i`, if it exists. -/
def listModify (xs : List α) (i : Nat) (f : α → α) : List α :=
  match xs.get? i with
  | some x => xs.set i (f x)
  | none => xs

/-- Mutate one item in place (attribute assignment on the referenced object). -/
def modifyItem (ws : WorldState) (i : Nat) (f : ItemData → ItemData) : WorldState :=
  { ws with items := listModify ws.items i f }

/-- Mutate one room in place. -/
def modifyRoom (ws : WorldState) (r : Nat) (f : RoomData → RoomData) : WorldState :=
  { ws with rooms := listModify ws.rooms r f }

/-- The `name` of an item reference (every dereference in the source is on a
valid reference; a dangling index yields the empty string). -/
def itemName (ws : WorldState) (i : Nat) : String :=
  ((getItem ws i).map (fun d => d.name)).getD ""

/-- The `name` of a room reference. -/
def roomName (ws : WorldState) (r : Nat) : String :=
  ((getRoom ws r).map (fun d => d.name)).getD ""

/-- Fuel that bounds every containment-graph walk: one more than the number
of items in the store. -/
def itemFuel (ws : WorldState) : Nat := ws.items.length + 1

/-! ## Text templates

Each `TEXT` entry of the source becomes a function from the context values it
interpolates to the rendered string. Names follow the dictionary keys:
`ctxt_*` for `Container.TEXT` (item.py lines 213-237), `ptxt_*` for
`Player.TEXT` (player.py lines 14-24), `rtxt_*` for `Room.TEXT`
(room.py lines 189-198). -/

def ctxt_OPENED (name : String) : String := "The " ++ name ++ " is open."

def ctxt_CLOSED (name : String) : String := "The " ++ name ++ " is closed."

def ctxt_LOOK_ITEMS (name items : String) : String :=
  "The " ++ name ++ " has these items inside it: " ++ items

def ctxt_LOOK_EMPTY (name : String) : String :=
  "The " ++ name ++ " is open but it has nothing inside it."

def ctxt_OPEN (name : String) : String := "The " ++ name ++ " is now opened."

def ctxt_ALREADY_OPEN (name : String) : String :=
  "The " ++ name ++ " is already open."

def ctxt_OPEN_LOCKED (name : String) : String := "The " ++ name ++ " is locked."

def ctxt_CLOSE (name : String) : String := "The " ++ name ++ " is now closed."

def ctxt_ALREADY_CLOSED (name : String) : String :=
  "The " ++ name ++ " is already closed."

def ctxt_UNLOCK (name : String) : String := "The " ++ name ++ " is now unlocked."

def ctxt_ALREADY_UNLOCKED (name : String) : String :=
  "The " ++ name ++ " is already unlocked."

def ctxt_LOCK (name : String) : String := "The " ++ name ++ " is now locked."

def ctxt_ALREADY_LOCKED (name : String) : String :=
  "The " ++ name ++ " is already locked."

def ctxt_ADD (item name : String) : String :=
  "You put the " ++ item ++ " in the " ++ name ++ "."

def ctxt_ADD_LOCKED (item name : String) : String :=
  "You can't put the " ++ item ++ " in the " ++ name ++ " because it is locked."

def ctxt_ADD_CONTAINED (item container : String) : String :=
  "The " ++ item ++ " is already in the " ++ container ++ "."

def ctxt_ADD_NOT_CONTAINABLE (item name : String) : String :=
  "The " ++ item ++ " can't be put in the " ++ name ++ "."

def ctxt_ALREADY_ADDED (item name : String) : String :=
  "The " ++ item ++ " is already in the " ++ name ++ "."

def ctxt_REMOVE (item name : String) : String :=
  "You remove the " ++ item ++ " from the " ++ name ++ "."

/-- Source concatenates `"...from the {name}"` and `"because it is locked."`
with no separating space, so the rendered text glues them together. -/
def ctxt_REMOVE_LOCKED (item name : String) : String :=
  "You can't remove the " ++ item ++ " from the " ++ name ++ "because it is locked."

def ctxt_ALREADY_REMOVED (item name : String) : String :=
  "The " ++ item ++ " is not in the " ++ name ++ "."

def ptxt_TAKE (item : String) : String :=
  "You take the " ++ item ++ " and put it in your inventory."

def ptxt_TAKE_IN_LOCKED_CONTAINER (item container : String) : String :=
  "The " ++ item ++ " is locked inside the " ++ container ++ "."

def ptxt_TAKE_NOT_INVENTORY (item : String) : String :=
  "You can't take the " ++ item ++ "."

def ptxt_ALREADY_TAKEN (item : String) : String :=
  "The " ++ item ++ " is already in your inventory."

def ptxt_DISCARD (item room : String) : String :=
  "You discard the " ++ item ++ " and leave it in the " ++ room ++ "."

/-- Defined in `Player.TEXT` but echoed by no code path: `Player.discard`
echoes `DISCARD` on both branches (player.py lines 114 and 116). -/
def ptxt_ALREADY_DISCARDED (item : String) : String :=
  "The " ++ item ++ " is not in your inventory."

def ptxt_NO_PATH (direction : String) : String :=
  "You can't go " ++ direction ++ "."

def ptxt_PATH_BLOCKED (direction : String) : String :=
  "The path " ++ direction ++ "ward is blocked."

def rtxt_ENTER (room : String) : String := "You enter the " ++ room ++ "."

def rtxt_LOOK_PATH (path direction destination : String) : String :=
  "Looking " ++ direction ++ "wards, you see a " ++ path ++ " to the "
    ++ destination ++ ". "

def rtxt_LOOK_PATH_BLOCKED (path direction destination blocked : String) : String :=
  "Looking " ++ direction ++ "wards, you see the " ++ destination
    ++ " but the " ++ path ++ " is " ++ blocked ++ "."

def rtxt_LOOK_ITEMS (room items : String) : String :=
  "Looking around the " ++ room ++ ", you see the following items: " ++ items

def rtxt_LOOK_EMPTY (room : String) : String :=
  "Looking around the " ++ room ++ ", you don't see any items."

/-- `CommandKernel.TEXT["NO_COMMAND"]` (command_kernel.py lines 11-13). -/
def NO_COMMAND_TEXT : String := "I don't understand what you mean."

/-! ## Attribute setters with echo re-subscription

`Item.room`/`Item.player` setters re-point the echo subscription; the
`Container` overrides additionally propagate the new value to every
contained item (item.py lines 142-174 and 283-323). Message routing is
modelled by collecting every echoed string, so only the field updates
remain. `Item.owner` (item.py lines 131-136) copies the owner's `player`
and `room` onto the item when the new owner is not `None`. -/

def setItemRoom (fuel : Nat) (ws : WorldState) (i : Nat) (newRoom : Option Nat) :
    WorldState :=
  match fuel with
  | 0 => ws
  | fuel + 1 =>
    let ws := modifyItem ws i (fun d => { d with room := newRoom })
    match getItem ws i with
    | some d =>
      if d.container then
        d.items.foldl (fun acc j => setItemRoom fuel acc j newRoom) ws
      else ws
    | none => ws

def setItemPlayer (fuel : Nat) (ws : WorldState) (i : Nat) (newPlayer : Bool) :
    WorldState :=
  match fuel with
  | 0 => ws
  | fuel + 1 =>
    let ws := modifyItem ws i (fun d => { d with player := newPlayer })
    match getItem ws i with
    | some d =>
      if d.container then
        d.items.foldl (fun acc j => setItemPlayer fuel acc j newPlayer) ws
      else ws
    | none => ws

def setOwner (fuel : Nat) (ws : WorldState) (i : Nat) (o : Option Nat) :
    WorldState :=
  let ws := modifyItem ws i (fun d => { d with owner := o })
  match o with
  | some c =>
    match getItem ws c with
    | some cd =>
      let ws := setItemPlayer fuel ws i cd.player
      setItemRoom fuel ws i cd.room
    | none => ws
  | none => ws

/-! ## Container operations (src/item.py, class `Container`) -/

/-- The `{items}` context value of `Container.context` (item.py lines
334-354): for more than one item, every name up to `self._items[:-2]`
followed by a comma and a space, then `self._items[-2]` and a space, then
"and " with the last; one item gives the bare name; none the empty string. -/
def containerItemsStr (names : List String) : String :=
  if names.length > 1 then
    String.join ((names.dropLast.dropLast).map (fun s => s ++ ", "))
      ++ (names.getD (names.length - 2) "" ++ " ")
      ++ ("and " ++ names.getLastD "")
  else if names.length = 1 then names.headD ""
  else ""

/-- `Container.look` (item.py lines 356-383). Echo only, no state change. -/
def containerLook (ws : WorldState) (c : Nat) (describe_self describe_items : Bool) :
    List String :=
  match getItem ws c with
  | none => []
  | some d =>
    let part1 :=
      if describe_self then
        [d.description, if d.opened then ctxt_OPENED d.name else ctxt_CLOSED d.name]
      else []
    let part2 :=
      if describe_items && d.opened then
        if d.items.length > 1 then
          [ctxt_LOOK_ITEMS d.name (containerItemsStr (d.items.map (itemName ws)))]
        else if d.items.length = 1 then
          [ctxt_LOOK_ITEMS d.name (containerItemsStr (d.items.map (itemName ws)))]
        else [ctxt_LOOK_EMPTY d.name]
      else []
    part1 ++ part2

/-- `Container.open` (item.py lines 385-400). The third component records
whether `on_open` was triggered. Opening echoes `OPEN` and then the
contents (`look(describe_self=False)` on the updated state). -/
def containerOpen (ws : WorldState) (c : Nat) : WorldState × List String × Bool :=
  match getItem ws c with
  | none => (ws, [], false)
  | some d =>
    if !d.opened then
      if !d.locked then
        let ws' := modifyItem ws c (fun d => { d with opened := true })
        (ws', ctxt_OPEN d.name :: containerLook ws' c false true, true)
      else (ws, [ctxt_OPEN_LOCKED d.name], false)
    else (ws, [ctxt_ALREADY_OPEN d.name], false)

/-- `Container.close` (item.py lines 402-411). -/
def containerClose (ws : WorldState) (c : Nat) : WorldState × List String :=
  match getItem ws c with
  | none => (ws, [])
  | some d =>
    if d.opened then
      (modifyItem ws c (fun d => { d with opened := false }), [ctxt_CLOSE d.name])
    else (ws, [ctxt_ALREADY_CLOSED d.name])

/-- `Container.unlock` (item.py lines 413-424): clearing the lock also opens
the container. -/
def containerUnlock (ws : WorldState) (c : Nat) : WorldState × List String :=
  match getItem ws c with
  | none => (ws, [])
  | some d =>
    if d.locked then
      let ws' := modifyItem ws c (fun d => { d with locked := false })
      let (ws'', msgs, _) := containerOpen ws' c
      (ws'', ctxt_UNLOCK d.name :: msgs)
    else (ws, [ctxt_ALREADY_UNLOCKED d.name])

/-- `Container.lock` (item.py lines 426-439): an open container is closed
before it is locked. -/
def containerLock (ws : WorldState) (c : Nat) : WorldState × List String :=
  match getItem ws c with
  | none => (ws, [])
  | some d =>
    if !d.locked then
      let (ws', msgs) := if d.opened then containerClose ws c else (ws, [])
      (modifyItem ws' c (fun d => { d with locked := true }),
        msgs ++ [ctxt_LOCK d.name])
    else (ws, [ctxt_ALREADY_LOCKED d.name])

/-- `Container._erase` (item.py lines 512-518): clear the item's owner and
drop the first occurrence from the content list. -/
def containerErase (ws : WorldState) (c i : Nat) : WorldState :=
  match getItem ws c with
  | none => ws
  | some cd =>
    if cd.items.contains i then
      let ws := modifyItem ws i (fun d => { d with owner := none })
      modifyItem ws c (fun d => { d with items := d.items.erase i })
    else ws

/-- `Container.remove` (item.py lines 492-510): guards in source order —
not-present, locked, closed — then `_erase` and the confirmation echo. -/
def containerRemove (ws : WorldState) (c i : Nat) : WorldState × List String :=
  match getItem ws c with
  | none => (ws, [])
  | some cd =>
    if !cd.items.contains i then (ws, [ctxt_ALREADY_REMOVED (itemName ws i) cd.name])
    else if cd.locked then (ws, [ctxt_REMOVE_LOCKED (itemName ws i) cd.name])
    else if !cd.opened then (ws, [ctxt_CLOSED cd.name])
    else
      let ws' := containerErase ws c i
      (ws', [ctxt_REMOVE (itemName ws' i) cd.name])

/-- `Container.get` (item.py lines 520-528): lookup by primary name only —
synonyms are not consulted here. -/
def containerGet (ws : WorldState) (c : Nat) (item_name : String) : Option Nat :=
  match getItem ws c with
  | none => none
  | some cd =>
    cd.items.find? (fun i =>
      match getItem ws i with
      | some d => d.name == item_name
      | none => false)

/-! ## Room operations (src/room.py, classes `AbstractRoom` and `Room`) -/

/-- One iteration of `AbstractRoom.add` (room.py lines 128-146) for a single
item: skip when already present, else point the item at the room, append it,
take it off the player, and recursively add a container's contents. -/
def roomAddOne (fuel : Nat) (ws : WorldState) (r i : Nat) : WorldState :=
  match fuel with
  | 0 => ws
  | fuel + 1 =>
    match getRoom ws r with
    | none => ws
    | some rd =>
      if rd.items.contains i then ws
      else
        let ws := setItemRoom (itemFuel ws) ws i (some r)
        let ws := modifyRoom ws r (fun rd => { rd with items := rd.items ++ [i] })
        let ws := setItemPlayer (itemFuel ws) ws i false
        match getItem ws i with
        | some d =>
          if d.container then d.items.foldl (fun acc j => roomAddOne fuel acc r j) ws
          else ws
        | none => ws

/-- `AbstractRoom.add` over a list of items. -/
def roomAdd (fuel : Nat) (ws : WorldState) (r : Nat) (is : List Nat) : WorldState :=
  is.foldl (fun acc i => roomAddOne fuel acc r i) ws

/-- `AbstractRoom.remove` (room.py lines 148-163): clear the item's room,
drop it from the room list, recurse into a container's contents; an absent
item raises `RuntimeError`, modelled by `none`. -/
def roomRemove (fuel : Nat) (ws : WorldState) (r i : Nat) : Option WorldState :=
  match fuel with
  | 0 => none
  | fuel + 1 =>
    match getRoom ws r with
    | none => none
    | some rd =>
      if rd.items.contains i then
        let ws := setItemRoom (itemFuel ws) ws i none
        let ws := modifyRoom ws r (fun rd => { rd with items := rd.items.erase i })
        match getItem ws i with
        | some d =>
          if d.container then
            d.items.foldlM (fun acc j => roomRemove fuel acc r j) ws
          else some ws
        | none => some ws
      else none

/-- `AbstractRoom.get` (room.py lines 165-173): the first item of the room
whose primary name equals `item_name` or whose synonyms contain it. -/
def roomGet (ws : WorldState) (r : Nat) (item_name : String) : Option Nat :=
  match getRoom ws r with
  | none => none
  | some rd =>
    rd.items.find? (fun i =>
      match getItem ws i with
      | some d => d.name == item_name || d.synonyms.contains item_name
      | none => false)

/-! ## Player operations (src/player.py, class `Player`) -/

/-- `Player.get` (player.py lines 129-137): the first inventory item whose
primary name equals `item_name` or whose synonyms contain it. -/
def playerGet (ws : WorldState) (item_name : String) : Option Nat :=
  ws.playerInventory.find? (fun i =>
    match getItem ws i with
    | some d => d.name == item_name || d.synonyms.contains item_name
    | none => false)

/-- `Player._erase` (player.py lines 118-127): put the item back into the
current room, drop it from the inventory, recurse into a container's
contents. -/
def playerErase (fuel : Nat) (ws : WorldState) (i : Nat) : Option WorldState :=
  match fuel with
  | 0 => none
  | fuel + 1 =>
    if ws.playerInventory.contains i then
      let ws := roomAddOne (itemFuel ws) ws ws.playerLocation i
      let ws := { ws with playerInventory := ws.playerInventory.erase i }
      match getItem ws i with
      | some d =>
        if d.container then d.items.foldlM (fun acc j => playerErase fuel acc j) ws
        else some ws
      | none => some ws
    else some ws

/-- `Player._insert` (player.py lines 92-105): remove the item from its room
if it has one (`AbstractRoom.remove` raises when absent), attach it to the
player, append it to the inventory, recurse into a container's contents. -/
def playerInsert (fuel : Nat) (ws : WorldState) (i : Nat) : Option WorldState :=
  match fuel with
  | 0 => none
  | fuel + 1 =>
    match getItem ws i with
    | none => none
    | some d => do
      let ws ←
        match d.room with
        | some r => roomRemove (itemFuel ws) ws r i
        | none => some ws
      let ws := setItemPlayer (itemFuel ws) ws i true
      let ws := { ws with playerInventory := ws.playerInventory ++ [i] }
      match getItem ws i with
      | some d' =>
        if d'.container then
          d'.items.foldlM (fun acc j => playerInsert fuel acc j) ws
        else some ws
      | none => some ws

/-- `Player.take` (player.py lines 61-90). The guards in source order: not
holdable (the echo line is duplicated in the source, so the message is
emitted twice), inside a locked container, already in the inventory; then
the item's container is opened if closed, the item removed from it, and
`_insert` moves it into the inventory. -/
def playerTake (ws : WorldState) (i : Nat) : Option (WorldState × List String) :=
  match getItem ws i with
  | none => none
  | some d =>
    if !d.inventory then
      some (ws, [ptxt_TAKE_NOT_INVENTORY d.name, ptxt_TAKE_NOT_INVENTORY d.name])
    else
      let ownerLocked :=
        match d.owner with
        | some c =>
          match getItem ws c with
          | some cd => cd.locked
          | none => false
        | none => false
      if ownerLocked then
        some (ws, [ptxt_TAKE_IN_LOCKED_CONTAINER d.name
          (match d.owner with
           | some c => itemName ws c
           | none => "")])
      else if ws.playerInventory.contains i then
        some (ws, [ptxt_ALREADY_TAKEN d.name])
      else
        let (ws1, msgs1) :=
          match d.owner with
          | some c =>
            let cOpened :=
              match getItem ws c with
              | some cd => cd.opened
              | none => true
            let (wsa, msgsa) :=
              if !cOpened then
                let (wsb, msgsb, _) := containerOpen ws c
                (wsb, msgsb)
              else (ws, [])
            let (wsc, msgsc) := containerRemove wsa c i
            (wsc, msgsa ++ msgsc)
          | none => (ws, [])
        do
          let ws2 ← playerInsert (itemFuel ws1) ws1 i
          some (ws2, msgs1 ++ [ptxt_TAKE d.name])

/-- `Player.discard` (player.py lines 107-116). Both branches echo the
`DISCARD` template; the absent-item branch does not use
`ALREADY_DISCARDED`. -/
def playerDiscard (ws : WorldState) (i : Nat) : Option (WorldState × List String) :=
  match getItem ws i with
  | none => none
  | some d =>
    if ws.playerInventory.contains i then do
      let ws' ← playerErase (itemFuel ws) ws i
      some (ws', [ptxt_DISCARD d.name (roomName ws' ws'.playerLocation)])
    else
      some (ws, [ptxt_DISCARD d.name (roomName ws ws.playerLocation)])

/-! ## Container insertion (src/item.py lines 441-490)

`Container._insert` and `Container.add` come after the room and player
operations they call. -/

/-- `Container._insert` (item.py lines 470-490) for a single item: skip when
already inside; else relocate the item to the container's room (via the
player's `_erase` — a crash, modelled `none`, when the item has no player)
or to the container's player, then set its owner to the container and append
it. -/
def containerInsertOne (ws : WorldState) (c i : Nat) : Option WorldState :=
  match getItem ws c, getItem ws i with
  | some cd, some d =>
    if cd.items.contains i then some ws
    else do
      let ws ←
        if d.room.isNone && cd.room.isSome then
          if d.player then do
            let ws1 ← playerErase (itemFuel ws) ws i
            match cd.room with
            | some r => some (roomAddOne (itemFuel ws1) ws1 r i)
            | none => none
          else none
        else if !d.player && cd.player then do
          let ws1 ←
            match d.room with
            | some r => roomRemove (itemFuel ws) ws r i
            | none => none
          playerInsert (itemFuel ws1) ws1 i
        else some ws
      let ws := setOwner (itemFuel ws) ws i (some c)
      some (modifyItem ws c (fun d2 => { d2 with items := d2.items ++ [i] }))
  | _, _ => none

/-- `Container.add` (item.py lines 441-468): guards in source order —
already owned (by any container, this one included), already in the content
list, not containable, locked, closed — then `_insert` and the confirmation
echo. -/
def containerAdd (ws : WorldState) (c i : Nat) : Option (WorldState × List String) :=
  match getItem ws c, getItem ws i with
  | some cd, some d =>
    match d.owner with
    | some o => some (ws, [ctxt_ADD_CONTAINED d.name (itemName ws o)])
    | none =>
      if cd.items.contains i then some (ws, [ctxt_ALREADY_ADDED d.name cd.name])
      else if !d.containable then
        some (ws, [ctxt_ADD_NOT_CONTAINABLE d.name cd.name])
      else if cd.locked then some (ws, [ctxt_ADD_LOCKED d.name cd.name])
      else if !cd.opened then some (ws, [ctxt_CLOSED cd.name])
      else do
        let ws' ← containerInsertOne ws c i
        some (ws', [ctxt_ADD d.name cd.name])
  | _, _ => none

/-! ## Movement and room description (src/room.py, src/player.py) -/

/-- `Room.get_path` (room.py lines 327-344): a canonical direction indexes
the path table directly; any other string is matched against each stored
path's name and destination name. -/
def roomGetPath (ws : WorldState) (r : Nat) (direction : String) : Option PathData :=
  match getRoom ws r with
  | none => none
  | some rd =>
    if DIRECTIONS.contains direction then rd.paths.lookup direction
    else
      (rd.paths.find? (fun p =>
        p.2.name == direction || roomName ws p.2.destination == direction)).map
        (fun p => p.2)

/-- `Room.look` (room.py lines 251-287): echo the description, one
concatenated line describing every installed path, and one line describing
the visible (unowned) items. -/
def roomLook (ws : WorldState) (r : Nat) : List String :=
  match getRoom ws r with
  | none => []
  | some rd =>
    let pathLine := String.join (rd.paths.map (fun p =>
      if !p.2.blocked then
        rtxt_LOOK_PATH p.2.name p.1 (roomName ws p.2.destination)
      else
        rtxt_LOOK_PATH_BLOCKED p.2.name p.1 (roomName ws p.2.destination)
          p.2.verb_blocked))
    let visible := rd.items.filter (fun i =>
      match getItem ws i with
      | some d => d.owner.isNone
      | none => false)
    let itemsLine :=
      if visible.length ≥ 1 then
        rtxt_LOOK_ITEMS rd.name (enumerate_items (visible.map (itemName ws)))
      else rtxt_LOOK_EMPTY rd.name
    [rd.description, pathLine, itemsLine]

/-- `Room.enter` (room.py lines 236-243): the entry line, then `look`. -/
def roomEnter (ws : WorldState) (r : Nat) : List String :=
  match getRoom ws r with
  | none => []
  | some rd => rtxt_ENTER rd.name :: roomLook ws r

/-- `Player.move` (player.py lines 139-157): no path echoes `NO_PATH`, a
blocked path echoes `PATH_BLOCKED`, an unblocked one relocates the player
and echoes the destination room's `enter` output. -/
def playerMove (ws : WorldState) (direction : String) : WorldState × List String :=
  match roomGetPath ws ws.playerLocation direction with
  | some p =>
    if !p.blocked then
      let ws' := { ws with playerLocation := p.destination }
      (ws', roomEnter ws' p.destination)
    else (ws, [ptxt_PATH_BLOCKED direction])
  | none => (ws, [ptxt_NO_PATH direction])

/-! ## Built-in commands (src/command.py) -/

/-- The name-resolution pattern every item-taking command repeats (for
example command.py lines 106-111, 228-230): look the name up in the player's
current room first, then in the player's inventory. -/
def resolveName (ws : WorldState) (n : String) : Option Nat :=
  match roomGet ws ws.playerLocation n with
  | some i => some i
  | none => playerGet ws n

/-- `Item.look` (item.py lines 192-198) echoes the `DESCRIPTION` template,
which renders to the item's description; `Container.look` overrides it. -/
def itemLook (ws : WorldState) (i : Nat) : List String :=
  match getItem ws i with
  | none => []
  | some d => if d.container then containerLook ws i true true else [d.description]

/-- `LookItemCommand.TEXT["NO_ITEM"]` (command.py lines 98-100). -/
def lookitem_NO_ITEM (item : String) : String := "You don't see a " ++ item ++ "."

/-- `LookItemCommand.execute` (command.py lines 106-122): resolve the name
(room, then inventory); a found item is looked at when it is unowned or its
owner is open, otherwise — and when nothing resolves — `NO_ITEM`. -/
def lookItemExecute (ws : WorldState) (item_name : String) : List String :=
  match resolveName ws item_name with
  | some i =>
    let ownerOpen :=
      match getItem ws i with
      | some d =>
        match d.owner with
        | some o =>
          match getItem ws o with
          | some od => od.opened
          | none => false
        | none => true
      | none => true
    if ownerOpen then itemLook ws i else [lookitem_NO_ITEM item_name]
  | none => [lookitem_NO_ITEM item_name]

/-- `MoveCommand.TEXT["NO_DIRECTION"]` (command.py lines 131-133). -/
def move_NO_DIRECTION (direction : String) : String :=
  direction ++ " is not a direction."

/-- `MoveCommand.execute` (command.py lines 138-145): canonical directions
move directly, synonyms are translated first, anything else is refused. -/
def moveExecute (ws : WorldState) (direction : String) : WorldState × List String :=
  if DIRECTIONS.contains direction then playerMove ws direction
  else
    match DIRECTION_SYNONYMS.lookup direction with
    | some canonical => playerMove ws canonical
    | none => (ws, [move_NO_DIRECTION direction])

/-- `TakeCommand.TEXT["ALREADY_IN_INVENTORY"]` (command.py lines 154-157). -/
def take_ALREADY_IN_INVENTORY (item : String) : String :=
  "The " ++ item ++ " is already in your inventory."

/-- `TakeCommand.TEXT["NO_ITEM"]`. -/
def take_NO_ITEM (item room : String) : String :=
  "There is no " ++ item ++ " in the " ++ room ++ "."

/-- `TakeCommand.execute` (command.py lines 162-175): the inventory is
checked first (to report an already-held item), then the current room. -/
def takeExecute (ws : WorldState) (item_name : String) :
    Option (WorldState × List String) :=
  if (playerGet ws item_name).isSome then
    some (ws, [take_ALREADY_IN_INVENTORY item_name])
  else
    match roomGet ws ws.playerLocation item_name with
    | some i => playerTake ws i
    | none =>
      some (ws, [take_NO_ITEM item_name (roomName ws ws.playerLocation)])

/-- `DiscardCommand.TEXT["NO_ITEM"]` (command.py lines 184-186). -/
def discard_NO_ITEM (item : String) : String :=
  "There is no " ++ item ++ " in your inventory."

/-- `DiscardCommand.execute` (command.py lines 191-198). -/
def discardExecute (ws : WorldState) (item_name : String) :
    Option (WorldState × List String) :=
  match playerGet ws item_name with
  | some i => playerDiscard ws i
  | none => some (ws, [discard_NO_ITEM item_name])

/-- `PutCommand.TEXT["NO_ITEM"]` (command.py lines 209-214). -/
def put_NO_ITEM (item room : String) : String :=
  "There is no " ++ item ++ " in the " ++ room ++ " or in your inventory."

/-- `PutCommand.TEXT["NO_CONTAINER"]`. -/
def put_NO_CONTAINER (container room : String) : String :=
  "There is no " ++ container ++ " in the " ++ room ++ " or in your inventory."

/-- `PutCommand.TEXT["NOT_CONTAINER"]`. -/
def put_NOT_CONTAINER (container : String) : String :=
  container ++ " is not a container."

/-- `PutCommand.execute` (command.py lines 226-252): resolve both names
(room, then inventory); with both found, a non-container target is refused
and a container target goes through `Container.add`; a missing item is
reported before a missing container. -/
def putExecute (ws : WorldState) (item_name container_name : String) :
    Option (WorldState × List String) :=
  let item := resolveName ws item_name
  let container := resolveName ws container_name
  match item, container with
  | some i, some c =>
    let isContainer :=
      match getItem ws c with
      | some cd => cd.container
      | none => false
    if isContainer then containerAdd ws c i
    else some (ws, [put_NOT_CONTAINER container_name])
  | none, _ =>
    some (ws, [put_NO_ITEM item_name (roomName ws ws.playerLocation)])
  | some _, none =>
    some (ws, [put_NO_CONTAINER container_name (roomName ws ws.playerLocation)])

/-- `RemoveCommand.TEXT["NO_ITEM"]` (command.py lines 261-264). -/
def removecmd_NO_ITEM (item room : String) : String :=
  "There is no " ++ item ++ " in the " ++ room ++ " or in your inventory."

/-- `RemoveCommand.TEXT["NO_CONTAINER"]`. -/
def removecmd_NO_CONTAINER (item container : String) : String :=
  item ++ " is not in " ++ container ++ "."

/-- `RemoveCommand.execute` (command.py lines 269-284): resolve the item
(room, then inventory); the stated container is accepted only when it is
the item's owner and `item.owner.name == container_name` — the owner's
primary name, synonyms unconsulted. -/
def removeExecute (ws : WorldState) (item_name container_name : String) :
    Option (WorldState × List String) :=
  match resolveName ws item_name with
  | none =>
    some (ws, [removecmd_NO_ITEM item_name (roomName ws ws.playerLocation)])
  | some i =>
    let ownerNameMatches :=
      match getItem ws i with
      | some d =>
        match d.owner with
        | some o => itemName ws o == container_name
        | none => false
      | none => false
    if ownerNameMatches then
      match (getItem ws i).bind (fun d => d.owner) with
      | some o => some (containerRemove ws o i)
      | none => some (ws, [removecmd_NO_CONTAINER item_name container_name])
    else some (ws, [removecmd_NO_CONTAINER item_name container_name])

/-! ## Command kernel (src/command.py lines 10-73, src/command_kernel.py)

A command object's data: its stopword list (`PutCommand` overrides the
default), its regular-expression pattern, and its `execute` method. The
pattern is a per-command datum (`self._pattern`, compiled and searched in
`Command.match`); it is embedded as a function from the preprocessed input
to `none` (no match) or the dictionary of named groups, and `execute` as a
function from the world and that dictionary to the new world and the echoed
strings. -/

structure Command where
  stopwords : List String := STOPWORDS
  pat : String → Option (List (String × String))
  exec : WorldState → List (String × String) → WorldState × List String

/-- `Command.match` (command.py lines 51-66): preprocess, search the
pattern, and on success run `execute` on the named groups; `some` plays the
source's `True` return, `none` its `False`. -/
def commandMatch (cmd : Command) (ws : WorldState) (input : String) :
    Option (WorldState × List String) :=
  match cmd.pat (preprocess cmd.stopwords input) with
  | some groups => some (cmd.exec ws groups)
  | none => none

/-- `CommandKernel.input` (command_kernel.py lines 44-54): feed the input to
each command in registration order, stop at the first match; fall through to
the `NO_COMMAND` echo. -/
def kernelInput : List Command → WorldState → String → WorldState × List String
  | [], ws, _ => (ws, [NO_COMMAND_TEXT])
  | cmd :: rest, ws, input =>
    match commandMatch cmd ws input with
    | some out => out
    | none => kernelInput rest ws input

/-! ## The driver (src/io_driver.py) -/

/-- The Python errors the embedding distinguishes. -/
inductive PyError
  | typeError
deriving Repr, DecidableEq

/-- The driver: the world it wraps, the registered commands, and the output
buffer `self._outstream` that the echo subscriptions append to. -/
structure IODriver where
  ws : WorldState
  commands : List Command
  outstream : List String

/-- The call `self._kernel.input(input_str)` at io_driver.py line 56.
`CommandKernel.input` (command_kernel.py line 44) declares two required
parameters, `world` and `input`; the call site supplies only `input_str`,
which binds `world` and leaves `input` unbound, so Python raises
`TypeError: input() missing 1 required positional argument` before any
command is consulted or any echo is buffered. -/
def kernelInputCall (_d : IODriver) (_input_str : String) : Except PyError IODriver :=
  Except.error PyError.typeError

/-- The behaviour io_driver.py lines 52-60 intend (and what the rest of the
file wires up): run the kernel on the wrapped world, buffer the echoes,
return the buffer and flush it. Defined for comparison with `ioProcess`. -/
def ioProcessIntended (d : IODriver) (input_str : String) :
    List String × IODriver :=
  let (ws', msgs) := kernelInput d.commands d.ws input_str
  let d' := { d with ws := ws', outstream := d.outstream ++ msgs }
  (d'.outstream, { d' with outstream := [] })

/-- `IODriver.process` (io_driver.py lines 52-60) as written: the kernel
call raises, so the buffered-output-and-flush tail never runs. -/
def ioProcess (d : IODriver) (input_str : String) :
    Except PyError (List String × IODriver) := do
  let d' ← kernelInputCall d input_str
  let output := d'.outstream
  pure (output, { d' with outstream := [] })

/-! ## Container construction and the lock/open state machine -/

/-- `Container.__init__` (item.py lines 239-256): the super call hard-codes
`containable=False` and `container=True` whatever the `containable` argument
says, and `self._opened = False if locked else opened` forces a locked
container closed. `owner`, `room` and `player` start as `None`. -/
def mkContainer (name : String) (synonyms : List String) (description : String)
    (items : List Nat) (opened locked inventory _containable : Bool) : ItemData :=
  { name := name, synonyms := synonyms, description := description,
    inventory := inventory, containable := false, container := true,
    items := items, opened := if locked then false else opened,
    locked := locked, owner := none, room := none, player := false }

/-- The four player-visible state transitions of a container. -/
inductive ContainerOp
  | opOpen
  | opClose
  | opLock
  | opUnlock
deriving Repr, DecidableEq

/-- Apply one transition to container `c`. -/
def applyOp (ws : WorldState) (c : Nat) : ContainerOp → WorldState × List String
  | ContainerOp.opOpen =>
    let (ws', msgs, _) := containerOpen ws c
    (ws', msgs)
  | ContainerOp.opClose => containerClose ws c
  | ContainerOp.opLock => containerLock ws c
  | ContainerOp.opUnlock => containerUnlock ws c

/-- Apply a sequence of transitions, discarding the echoes. -/
def applyOps (ws : WorldState) (c : Nat) : List ContainerOp → WorldState
  | [] => ws
  | op :: ops => applyOps (applyOp ws c op).1 c ops

/-- The invariant of claim C10: a locked container is never open. -/
def lockClosedInv (ws : WorldState) (c : Nat) : Prop :=
  ∀ d, getItem ws c = some d → d.locked = true → d.opened = false

/-! ## A concrete authored world

A small world used to evaluate the embedding at concrete inputs: a cave
holding an open chest (synonym "box") with a gem inside, a statue that
cannot be picked up, a locked coffer, a closed crate, and two paths — an
unblocked trail north to the forest and a blocked gate south. -/

def gemItem : ItemData :=
  { name := "gem", synonyms := ["jewel"], description := "a shiny gem",
    inventory := true, containable := true, container := false,
    items := [], opened := false, locked := false,
    owner := some 1, room := some 0, player := false }

def chestItem : ItemData :=
  { name := "chest", synonyms := ["box"], description := "a big chest",
    inventory := false, containable := false, container := true,
    items := [0], opened := true, locked := false,
    owner := none, room := some 0, player := false }

def statueItem : ItemData :=
  { name := "statue", synonyms := [], description := "a heavy statue",
    inventory := false, containable := false, container := false,
    items := [], opened := false, locked := false,
    owner := none, room := some 0, player := false }

def cofferItem : ItemData :=
  { name := "coffer", synonyms := [], description := "an iron coffer",
    inventory := false, containable := false, container := true,
    items := [], opened := false, locked := true,
    owner := none, room := some 0, player := false }

def crateItem : ItemData :=
  { name := "crate", synonyms := [], description := "a wooden crate",
    inventory := false, containable := false, container := true,
    items := [], opened := false, locked := false,
    owner := none, room := some 0, player := false }

def pebbleItem : ItemData :=
  { name := "pebble", synonyms := [], description := "a smooth pebble",
    inventory := true, containable := true, container := false,
    items := [], opened := false, locked := false,
    owner := none, room := some 0, player := false }

def trailPath : PathData :=
  { name := "trail", destination := 1, blocked := false,
    verb_blocked := "blocked", verb_unblocked := "unblocked" }

def gatePath : PathData :=
  { name := "gate", destination := 1, blocked := true,
    verb_blocked := "closed", verb_unblocked := "opened" }

def caveRoom : RoomData :=
  { name := "cave", description := "a dark cave", items := [1, 0, 2, 3, 4, 5],
    paths := [("north", trailPath), ("south", gatePath)] }

def forestRoom : RoomData :=
  { name := "forest", description := "a quiet forest", items := [],
    paths := [] }

def demoWS : WorldState :=
  { items := [gemItem, chestItem, statueItem, cofferItem, crateItem, pebbleItem],
    rooms := [caveRoom, forestRoom],
    playerLocation := 0, playerInventory := [] }

/-- A command whose pattern never matches. -/
def cmdNoMatch : Command :=
  { pat := fun _ => none, exec := fun ws _ => (ws, []) }

/-- A command whose pattern always matches and whose action only echoes. -/
def cmdCatchAll : Command :=
  { pat := fun _ => some [], exec := fun ws _ => (ws, ["(generic action)"]) }

/-! ## Helper lemmas on the state accessors -/

theorem get?_listModify_self (xs : List α) (i : Nat) (f : α → α) :
    (listModify xs i f).get? i = (xs.get? i).map f := by
  unfold listModify
  cases h : xs.get? i with
  | none => simpa using h
  | some x =>
    have hlt : i < xs.length := by
      by_contra hge
      rw [List.get?_eq_none.mpr (Nat.le_of_not_lt hge)] at h
      exact Option.noConfusion h
    simp [h, List.get?_eq_getElem?, List.getElem?_set_eq_of_lt _ hlt]

theorem get?_listModify_ne (xs : List α) (i j : Nat) (f : α → α) (h : i ≠ j) :
    (listModify xs i f).get? j = xs.get? j := by
  unfold listModify
  cases hx : xs.get? i with
  | none => rfl
  | some x =>
    simp only [List.get?_eq_getElem?]
    exact List.getElem?_set_ne h

theorem getItem_modifyItem_self (ws : WorldState) (i : Nat) (f : ItemData → ItemData) :
    getItem (modifyItem ws i f) i = (getItem ws i).map f :=
  get?_listModify_self ws.items i f

theorem getItem_modifyItem_ne (ws : WorldState) (i j : Nat) (f : ItemData → ItemData)
    (h : i ≠ j) : getItem (modifyItem ws i f) j = getItem ws j :=
  get?_listModify_ne ws.items i j f h

theorem getItem_modifyRoom (ws : WorldState) (r i : Nat) (f : RoomData → RoomData) :
    getItem (modifyRoom ws r f) i = getItem ws i := rfl

theorem getRoom_modifyItem (ws : WorldState) (i r : Nat) (f : ItemData → ItemData) :
    getRoom (modifyItem ws i f) r = getRoom ws r := rfl

theorem getRoom_modifyRoom_self (ws : WorldState) (r : Nat) (f : RoomData → RoomData) :
    getRoom (modifyRoom ws r f) r = (getRoom ws r).map f :=
  get?_listModify_self ws.rooms r f

theorem getRoom_modifyRoom_ne (ws : WorldState) (r s : Nat) (f : RoomData → RoomData)
    (h : r ≠ s) : getRoom (modifyRoom ws r f) s = getRoom ws s :=
  get?_listModify_ne ws.rooms r s f h

/-! ## The claims -/

/-- C1: the claimed subscribe-and-buffer contract of `IODriver.process` does
not hold on the code as written — every `process` call fails with a
`TypeError`, because `self._kernel.input(input_str)` supplies one argument
to `CommandKernel.input(self, world, input)`, which requires two. No message
list is ever returned. -/
theorem claim_C1 (d : IODriver) (input_str : String) :
    ioProcess d input_str = Except.error PyError.typeError := rfl

/-- C2: `enumerate_items` returns the empty string for `[]`, the bare name
for one element and "a and b" for two, as claimed; but for three or more
names it omits the comma before the final "and": the code yields
"sword, shield and map" where the claim (and the function's own docstring
example "dog, cat, and mouse") demands "sword, shield, and map". -/
theorem claim_C2 :
    enumerate_items [] = "" ∧
    enumerate_items ["sword"] = "sword" ∧
    enumerate_items ["sword", "shield"] = "sword and shield" ∧
    enumerate_items ["sword", "shield", "map"] = "sword, shield and map" ∧
    enumerate_items ["sword", "shield", "map"] ≠ "sword, shield, and map" := by
  refine ⟨rfl, rfl, rfl, rfl, ?_⟩
  decide

/-- C3: the kernel tries the registered commands in registration order; the
first command whose preprocessed pattern matches executes and determines the
whole result (the commands after it are never consulted), and when no
command matches the kernel returns the world unchanged — no entity mutated —
together with exactly the one fallback message. -/
theorem claim_C3 (cs1 cs2 : List Command) (cmd : Command) (ws : WorldState)
    (input : String) :
    ((∀ c' ∈ cs1, commandMatch c' ws input = none) →
      ∀ out, commandMatch cmd ws input = some out →
        kernelInput (cs1 ++ cmd :: cs2) ws input = out) ∧
    (∀ cs : List Command, (∀ c' ∈ cs, commandMatch c' ws input = none) →
      kernelInput cs ws input = (ws, [NO_COMMAND_TEXT])) := by
  constructor
  · intro hnone out hmatch
    induction cs1 with
    | nil => simp [kernelInput, hmatch]
    | cons c rest ih =>
      have hc : commandMatch c ws input = none := hnone c (by simp)
      simp only [List.cons_append, kernelInput, hc]
      exact ih (fun c' hc' => hnone c' (by simp [hc']))
  · intro cs hnone
    induction cs with
    | nil => rfl
    | cons c rest ih =>
      have hc : commandMatch c ws input = none := hnone c (by simp)
      simp only [kernelInput, hc]
      exact ih (fun c' hc' => hnone c' (by simp [hc']))

/-- C3 witness: with only a never-matching command registered the kernel
falls back to the single `NO_COMMAND` message and an unchanged world; with a
catch-all command behind it, the catch-all's output is the result. -/
theorem claim_C3_witness :
    kernelInput [cmdNoMatch] demoWS "frobnicate" = (demoWS, [NO_COMMAND_TEXT]) ∧
    kernelInput [cmdNoMatch, cmdCatchAll] demoWS "open chest" =
      (demoWS, ["(generic action)"]) := by
  constructor
  · exact (claim_C3 [] [] cmdNoMatch demoWS "frobnicate").2 [cmdNoMatch]
      (by intro c' hc'; rw [List.mem_singleton.mp hc']; rfl)
  · exact (claim_C3 [cmdNoMatch] [] cmdCatchAll demoWS "open chest").1
      (by intro c' hc'; rw [List.mem_singleton.mp hc']; rfl)
      (demoWS, ["(generic action)"]) rfl

/-- C4: the claim's two highlighted failure cases contradict the code.
Taking the statue (`inventory=False`) echoes the `TAKE_NOT_INVENTORY`
message twice — player.py lines 66-67 duplicate the echo — and discarding
an item that is not in the inventory echoes the `DISCARD` success template
(player.py line 116), not a message distinct to that failing check: the
defined `ALREADY_DISCARDED` text is never used. The world is unchanged in
both cases. -/
theorem claim_C4 :
    playerTake demoWS 2 =
      some (demoWS,
        [ptxt_TAKE_NOT_INVENTORY "statue", ptxt_TAKE_NOT_INVENTORY "statue"]) ∧
    playerDiscard demoWS 2 = some (demoWS, [ptxt_DISCARD "statue" "cave"]) ∧
    ptxt_DISCARD "statue" "cave" ≠ ptxt_ALREADY_DISCARDED "statue" := by
  refine ⟨rfl, rfl, ?_⟩
  decide

/-! ### Characterizations of the container transitions -/

theorem getItem_modifyItem_of_eq (ws : WorldState) (c : Nat) (d : ItemData)
    (f : ItemData → ItemData) (h : getItem ws c = some d) :
    getItem (modifyItem ws c f) c = some (f d) := by
  simp [getItem_modifyItem_self, h]

theorem containerOpen_opens (ws : WorldState) (c : Nat) (d : ItemData)
    (h : getItem ws c = some d) (ho : d.opened = false) (hl : d.locked = false) :
    containerOpen ws c =
      (modifyItem ws c (fun x => { x with opened := true }),
       ctxt_OPEN d.name ::
         containerLook (modifyItem ws c (fun x => { x with opened := true }))
           c false true,
       true) := by
  simp [containerOpen, h, ho, hl]

theorem containerOpen_refused_locked (ws : WorldState) (c : Nat) (d : ItemData)
    (h : getItem ws c = some d) (ho : d.opened = false) (hl : d.locked = true) :
    containerOpen ws c = (ws, [ctxt_OPEN_LOCKED d.name], false) := by
  simp [containerOpen, h, ho, hl]

theorem containerOpen_already_open (ws : WorldState) (c : Nat) (d : ItemData)
    (h : getItem ws c = some d) (ho : d.opened = true) :
    containerOpen ws c = (ws, [ctxt_ALREADY_OPEN d.name], false) := by
  simp [containerOpen, h, ho]

theorem containerClose_closes (ws : WorldState) (c : Nat) (d : ItemData)
    (h : getItem ws c = some d) (ho : d.opened = true) :
    containerClose ws c =
      (modifyItem ws c (fun x => { x with opened := false }),
       [ctxt_CLOSE d.name]) := by
  simp [containerClose, h, ho]

theorem containerClose_already_closed (ws : WorldState) (c : Nat) (d : ItemData)
    (h : getItem ws c = some d) (ho : d.opened = false) :
    containerClose ws c = (ws, [ctxt_ALREADY_CLOSED d.name]) := by
  simp [containerClose, h, ho]

theorem containerLock_already_locked (ws : WorldState) (c : Nat) (d : ItemData)
    (h : getItem ws c = some d) (hl : d.locked = true) :
    containerLock ws c = (ws, [ctxt_ALREADY_LOCKED d.name]) := by
  simp [containerLock, h, hl]

theorem containerUnlock_already_unlocked (ws : WorldState) (c : Nat) (d : ItemData)
    (h : getItem ws c = some d) (hl : d.locked = false) :
    containerUnlock ws c = (ws, [ctxt_ALREADY_UNLOCKED d.name]) := by
  simp [containerUnlock, h, hl]

/-- C9: opening a closed, unlocked container fires `on_open` and records
`opened := true`; a second `open` leaves the state untouched, echoes only
the `ALREADY_OPEN` message, and does not fire `on_open` again. -/
theorem claim_C9 (ws : WorldState) (c : Nat) (d : ItemData)
    (h : getItem ws c = some d) (ho : d.opened = false) (hl : d.locked = false) :
    (containerOpen ws c).2.2 = true ∧
    getItem (containerOpen ws c).1 c = some { d with opened := true } ∧
    containerOpen (containerOpen ws c).1 c =
      ((containerOpen ws c).1, [ctxt_ALREADY_OPEN d.name], false) := by
  have hws' := containerOpen_opens ws c d h ho hl
  have hget : getItem (containerOpen ws c).1 c = some { d with opened := true } := by
    rw [hws']
    exact getItem_modifyItem_of_eq ws c d _ h
  refine ⟨by rw [hws'], hget, ?_⟩
  exact containerOpen_already_open (containerOpen ws c).1 c
    { d with opened := true } hget rfl

/-- C9 witness: the crate of the demo world, closed and unlocked. -/
theorem claim_C9_witness :
    (containerOpen demoWS 4).2.2 = true ∧
    getItem (containerOpen demoWS 4).1 4 = some { crateItem with opened := true } ∧
    containerOpen (containerOpen demoWS 4).1 4 =
      ((containerOpen demoWS 4).1, [ctxt_ALREADY_OPEN "crate"], false) :=
  claim_C9 demoWS 4 crateItem rfl rfl rfl

/-- Preservation of the locked-implies-closed invariant by a single
transition: `open` refuses while locked, `close` only closes, `lock` closes
before locking, and `unlock` clears the lock (making the invariant
vacuous). -/
theorem lockClosedInv_applyOp (ws : WorldState) (c : Nat) (op : ContainerOp)
    (hinv : lockClosedInv ws c) : lockClosedInv (applyOp ws c op).1 c := by
  cases op with
  | opOpen =>
    cases hc : getItem ws c with
    | none =>
      have : (applyOp ws c ContainerOp.opOpen).1 = ws := by
        simp [applyOp, containerOpen, hc]
      rw [this]; exact hinv
    | some d =>
      cases hop : d.opened with
      | true =>
        have : (applyOp ws c ContainerOp.opOpen).1 = ws := by
          simp [applyOp, containerOpen_already_open ws c d hc hop]
        rw [this]; exact hinv
      | false =>
        cases hlk : d.locked with
        | true =>
          have : (applyOp ws c ContainerOp.opOpen).1 = ws := by
            simp [applyOp, containerOpen_refused_locked ws c d hc hop hlk]
          rw [this]; exact hinv
        | false =>
          have : (applyOp ws c ContainerOp.opOpen).1 =
              modifyItem ws c (fun x => { x with opened := true }) := by
            simp [applyOp, containerOpen_opens ws c d hc hop hlk]
          rw [this]
          intro d' h' hl'
          rw [getItem_modifyItem_of_eq ws c d _ hc] at h'
          cases Option.some.inj h'
          exact absurd hl' (by simp [hlk])
  | opClose =>
    cases hc : getItem ws c with
    | none =>
      have : (applyOp ws c ContainerOp.opClose).1 = ws := by
        simp [applyOp, containerClose, hc]
      rw [this]; exact hinv
    | some d =>
      cases hop : d.opened with
      | false =>
        have : (applyOp ws c ContainerOp.opClose).1 = ws := by
          simp [applyOp, containerClose_already_closed ws c d hc hop]
        rw [this]; exact hinv
      | true =>
        have : (applyOp ws c ContainerOp.opClose).1 =
            modifyItem ws c (fun x => { x with opened := false }) := by
          simp [applyOp, containerClose_closes ws c d hc hop]
        rw [this]
        intro d' h' _
        rw [getItem_modifyItem_of_eq ws c d _ hc] at h'
        cases Option.some.inj h'
        rfl
  | opLock =>
    cases hc : getItem ws c with
    | none =>
      have : (applyOp ws c ContainerOp.opLock).1 = ws := by
        simp [applyOp, containerLock, hc]
      rw [this]; exact hinv
    | some d =>
      cases hlk : d.locked with
      | true =>
        have : (applyOp ws c ContainerOp.opLock).1 = ws := by
          simp [applyOp, containerLock_already_locked ws c d hc hlk]
        rw [this]; exact hinv
      | false =>
        cases hop : d.opened with
        | false =>
          have : (applyOp ws c ContainerOp.opLock).1 =
              modifyItem ws c (fun x => { x with locked := true }) := by
            simp [applyOp, containerLock, hc, hlk, hop]
          rw [this]
          intro d' h' _
          rw [getItem_modifyItem_of_eq ws c d _ hc] at h'
          cases Option.some.inj h'
          exact hop
        | true =>
          have : (applyOp ws c ContainerOp.opLock).1 =
              modifyItem (modifyItem ws c (fun x => { x with opened := false }))
                c (fun x => { x with locked := true }) := by
            simp [applyOp, containerLock, hc, hlk, hop,
              containerClose_closes ws c d hc hop]
          rw [this]
          intro d' h' _
          rw [getItem_modifyItem_of_eq _ c { d with opened := false } _
            (getItem_modifyItem_of_eq ws c d _ hc)] at h'
          cases Option.some.inj h'
          rfl
  | opUnlock =>
    cases hc : getItem ws c with
    | none =>
      have : (applyOp ws c ContainerOp.opUnlock).1 = ws := by
        simp [applyOp, containerUnlock, hc]
      rw [this]; exact hinv
    | some d =>
      cases hlk : d.locked with
      | false =>
        have : (applyOp ws c ContainerOp.opUnlock).1 = ws := by
          simp [applyOp, containerUnlock_already_unlocked ws c d hc hlk]
        rw [this]; exact hinv
      | true =>
        have h1 : getItem (modifyItem ws c (fun x => { x with locked := false })) c
            = some { d with locked := false } :=
          getItem_modifyItem_of_eq ws c d _ hc
        cases hop : d.opened with
        | true =>
          have : (applyOp ws c ContainerOp.opUnlock).1 =
              modifyItem ws c (fun x => { x with locked := false }) := by
            simp [applyOp, containerUnlock, hc, hlk,
              containerOpen_already_open _ c _ h1 hop]
          rw [this]
          intro d' h' hl'
          rw [h1] at h'
          cases Option.some.inj h'
          exact absurd hl' (by simp)
        | false =>
          have : (applyOp ws c ContainerOp.opUnlock).1 =
              modifyItem (modifyItem ws c (fun x => { x with locked := false }))
                c (fun x => { x with opened := true }) := by
            simp [applyOp, containerUnlock, hc, hlk,
              containerOpen_opens _ c _ h1 hop rfl]
          rw [this]
          intro d' h' hl'
          rw [getItem_modifyItem_of_eq _ c { d with locked := false } _ h1] at h'
          cases Option.some.inj h'
          exact absurd hl' (by simp)

/-- Invariant preservation along any transition sequence. -/
theorem lockClosedInv_applyOps (ws : WorldState) (c : Nat) (ops : List ContainerOp)
    (hinv : lockClosedInv ws c) : lockClosedInv (applyOps ws c ops) c := by
  induction ops generalizing ws with
  | nil => exact hinv
  | cons op ops ih => exact ih (applyOp ws c op).1 (lockClosedInv_applyOp ws c op hinv)

/-- C10: the locked-implies-closed invariant. Construction with
`locked=True` forces `opened=False` whatever the `opened` argument; the
invariant is preserved by every sequence of open/close/lock/unlock; `open`
leaves a locked container's state untouched; `lock` on an unlocked open
container closes it before locking; every transition other than `unlock`
keeps a locked container locked, and `unlock` clears the lock and opens the
container. -/
theorem claim_C10 :
    (∀ n syn ds its opened inv cble,
      (mkContainer n syn ds its opened true inv cble).opened = false) ∧
    (∀ ws c (ops : List ContainerOp), lockClosedInv ws c →
      lockClosedInv (applyOps ws c ops) c) ∧
    (∀ ws c d, getItem ws c = some d → d.locked = true →
      (containerOpen ws c).1 = ws) ∧
    (∀ ws c d, getItem ws c = some d → d.locked = false → d.opened = true →
      getItem (containerLock ws c).1 c =
        some { d with opened := false, locked := true }) ∧
    (∀ ws c d op, getItem ws c = some d → d.locked = true →
      op ≠ ContainerOp.opUnlock →
      (getItem (applyOp ws c op).1 c).map (fun d' => d'.locked) = some true) ∧
    (∀ ws c d, getItem ws c = some d → d.locked = true →
      getItem (containerUnlock ws c).1 c =
        some { d with locked := false, opened := true }) := by
  refine ⟨fun n syn ds its opened inv cble => rfl,
    lockClosedInv_applyOps, ?_, ?_, ?_, ?_⟩
  · intro ws c d hc hl
    cases hop : d.opened with
    | true => rw [containerOpen_already_open ws c d hc hop]
    | false => rw [containerOpen_refused_locked ws c d hc hop hl]
  · intro ws c d hc hl hop
    have : (containerLock ws c).1 =
        modifyItem (modifyItem ws c (fun x => { x with opened := false }))
          c (fun x => { x with locked := true }) := by
      simp [containerLock, hc, hl, hop, containerClose_closes ws c d hc hop]
    rw [this]
    rw [getItem_modifyItem_of_eq _ c { d with opened := false } _
      (getItem_modifyItem_of_eq ws c d _ hc)]
  · intro ws c d op hc hl hne
    cases op with
    | opOpen =>
      cases hop : d.opened with
      | true =>
        have : (applyOp ws c ContainerOp.opOpen).1 = ws := by
          simp [applyOp, containerOpen_already_open ws c d hc hop]
        rw [this, hc]
        simp [hl]
      | false =>
        have : (applyOp ws c ContainerOp.opOpen).1 = ws := by
          simp [applyOp, containerOpen_refused_locked ws c d hc hop hl]
        rw [this, hc]
        simp [hl]
    | opClose =>
      cases hop : d.opened with
      | false =>
        have : (applyOp ws c ContainerOp.opClose).1 = ws := by
          simp [applyOp, containerClose_already_closed ws c d hc hop]
        rw [this, hc]
        simp [hl]
      | true =>
        have : (applyOp ws c ContainerOp.opClose).1 =
            modifyItem ws c (fun x => { x with opened := false }) := by
          simp [applyOp, containerClose_closes ws c d hc hop]
        rw [this, getItem_modifyItem_of_eq ws c d _ hc]
        simpa using hl
    | opLock =>
      have : (applyOp ws c ContainerOp.opLock).1 = ws := by
        simp [applyOp, containerLock_already_locked ws c d hc hl]
      rw [this, hc]
      simp [hl]
    | opUnlock => exact absurd rfl hne
  · intro ws c d hc hl
    have h1 : getItem (modifyItem ws c (fun x => { x with locked := false })) c
        = some { d with locked := false } :=
      getItem_modifyItem_of_eq ws c d _ hc
    cases hop : d.opened with
    | true =>
      have : (containerUnlock ws c).1 =
          modifyItem ws c (fun x => { x with locked := false }) := by
        simp [containerUnlock, hc, hl, containerOpen_already_open _ c _ h1 hop]
      rw [this, h1, ← hop]
    | false =>
      have : (containerUnlock ws c).1 =
          modifyItem (modifyItem ws c (fun x => { x with locked := false }))
            c (fun x => { x with opened := true }) := by
        simp [containerUnlock, hc, hl, containerOpen_opens _ c _ h1 hop rfl]
      rw [this, getItem_modifyItem_of_eq _ c { d with locked := false } _ h1]

/-- C10 witness: the demo coffer is locked; opening it changes nothing, and
unlocking it clears the lock and opens it. -/
theorem claim_C10_witness :
    (mkContainer "coffer" [] "an iron coffer" [] true true false false).opened
      = false ∧
    (containerOpen demoWS 3).1 = demoWS ∧
    getItem (containerUnlock demoWS 3).1 3 =
      some { cofferItem with locked := false, opened := true } :=
  ⟨(claim_C10).1 "coffer" [] "an iron coffer" [] true false false,
   (claim_C10).2.2.1 demoWS 3 cofferItem rfl rfl,
   (claim_C10).2.2.2.2.2 demoWS 3 cofferItem rfl rfl⟩

/-- C8: moving through a blocked path leaves the whole world state (the
player's location included) unchanged and emits exactly the blocked
message; moving through an unblocked path sets `player.location` to the
path's destination and emits that room's `enter` output — the entry line,
then the room's description, its paths line and its items line. -/
theorem claim_C8 (ws : WorldState) (direction : String) (p : PathData)
    (hp : roomGetPath ws ws.playerLocation direction = some p) :
    (p.blocked = true →
      playerMove ws direction = (ws, [ptxt_PATH_BLOCKED direction])) ∧
    (p.blocked = false →
      (playerMove ws direction).1.playerLocation = p.destination ∧
      (playerMove ws direction).2 =
        roomEnter { ws with playerLocation := p.destination } p.destination ∧
      ∀ rd, getRoom ws p.destination = some rd →
        ∃ pathsLine itemsLine,
          (playerMove ws direction).2 =
            rtxt_ENTER rd.name :: rd.description :: pathsLine :: [itemsLine]) := by
  constructor
  · intro hb
    simp [playerMove, hp, hb]
  · intro hb
    refine ⟨by simp [playerMove, hp, hb], by simp [playerMove, hp, hb], ?_⟩
    intro rd hrd
    have hrd' : getRoom { ws with playerLocation := p.destination } p.destination
        = some rd := hrd
    simp only [playerMove, hp, hb, Bool.not_true, Bool.not_false, if_true,
      roomEnter, hrd', roomLook]
    exact ⟨_, _, rfl⟩

/-- C8 witness: the demo cave's southern gate is blocked, its northern
trail is not. -/
theorem claim_C8_witness :
    playerMove demoWS "south" = (demoWS, [ptxt_PATH_BLOCKED "south"]) ∧
    (playerMove demoWS "north").1.playerLocation = 1 :=
  ⟨(claim_C8 demoWS "south" gatePath (by decide)).1 rfl,
   ((claim_C8 demoWS "north" trailPath (by decide)).2 rfl).1⟩

/-! ### Single-step reductions for the take trace -/

theorem setItemRoom_notContainer (fuel : Nat) (ws : WorldState) (i : Nat)
    (r : Option Nat) (d : ItemData) (hd : getItem ws i = some d)
    (hnc : d.container = false) :
    setItemRoom (fuel + 1) ws i r =
      modifyItem ws i (fun x => { x with room := r }) := by
  simp only [setItemRoom]
  rw [getItem_modifyItem_of_eq ws i d _ hd]
  simp [hnc]

theorem setItemPlayer_notContainer (fuel : Nat) (ws : WorldState) (i : Nat)
    (pl : Bool) (d : ItemData) (hd : getItem ws i = some d)
    (hnc : d.container = false) :
    setItemPlayer (fuel + 1) ws i pl =
      modifyItem ws i (fun x => { x with player := pl }) := by
  simp only [setItemPlayer]
  rw [getItem_modifyItem_of_eq ws i d _ hd]
  simp [hnc]

theorem getItem_setInventory (ws : WorldState) (inv : List Nat) (i : Nat) :
    getItem { ws with playerInventory := inv } i = getItem ws i := rfl

theorem roomRemove_notContainer (fuel : Nat) (ws : WorldState) (r i : Nat)
    (rd : RoomData) (d : ItemData) (hr : getRoom ws r = some rd)
    (hmem : rd.items.contains i = true) (hd : getItem ws i = some d)
    (hnc : d.container = false) :
    roomRemove (fuel + 1) ws r i =
      some (modifyRoom (modifyItem ws i (fun x => { x with room := none })) r
        (fun x => { x with items := x.items.erase i })) := by
  simp only [roomRemove, hr, hmem, if_true]
  rw [show itemFuel ws = ws.items.length + 1 from rfl,
    setItemRoom_notContainer ws.items.length ws i none d hd hnc]
  rw [show getItem (modifyRoom (modifyItem ws i (fun x => { x with room := none })) r
        (fun x => { x with items := x.items.erase i })) i =
      getItem (modifyItem ws i (fun x => { x with room := none })) i from rfl]
  rw [getItem_modifyItem_of_eq ws i d _ hd]
  simp [hnc]

theorem playerInsert_notContainer_roomSome (fuel : Nat) (ws : WorldState)
    (i r : Nat) (d : ItemData) (ws2 : WorldState) (d2 : ItemData)
    (hd : getItem ws i = some d) (hroom : d.room = some r)
    (hrem : roomRemove (itemFuel ws) ws r i = some ws2)
    (hd2 : getItem ws2 i = some d2) (hnc2 : d2.container = false) :
    playerInsert (fuel + 1) ws i =
      some { modifyItem ws2 i (fun x => { x with player := true }) with
        playerInventory := ws2.playerInventory ++ [i] } := by
  have h1 : setItemPlayer (itemFuel ws2) ws2 i true =
      modifyItem ws2 i (fun x => { x with player := true }) :=
    setItemPlayer_notContainer ws2.items.length ws2 i true d2 hd2 hnc2
  have h2 : getItem { modifyItem ws2 i (fun x => { x with player := true }) with
      playerInventory := (modifyItem ws2 i
        (fun x => { x with player := true })).playerInventory ++ [i] } i
      = some { d2 with player := true } := by
    rw [getItem_setInventory, getItem_modifyItem_of_eq ws2 i d2 _ hd2]
  simp only [playerInsert, hd, hroom, hrem, Option.bind_eq_bind,
    Option.some_bind, h1, h2, hnc2, Bool.false_eq_true, if_false]
  rfl

/-- C7: taking a holdable plain item that sits inside an open, unlocked
container in the player's current room succeeds; afterwards the item's
owner is `None`, its room is `None`, its player is set, it is in the
player's inventory, and the container's content list no longer includes
it. -/
theorem claim_C7 (ws : WorldState) (i c r : Nat) (di dc : ItemData)
    (rd : RoomData) (hic : i ≠ c)
    (hi : getItem ws i = some di) (hc : getItem ws c = some dc)
    (hr : getRoom ws r = some rd)
    (hinv : di.inventory = true) (hncont : di.container = false)
    (hown : di.owner = some c) (hroom : di.room = some r)
    (hopen : dc.opened = true) (hlock : dc.locked = false)
    (hmem : dc.items.contains i = true) (hcount : dc.items.count i ≤ 1)
    (hrmem : rd.items.contains i = true)
    (hninv : ws.playerInventory.contains i = false) :
    ∃ ws' msgs, playerTake ws i = some (ws', msgs) ∧
      getItem ws' i = some { di with owner := none, room := none, player := true } ∧
      i ∈ ws'.playerInventory ∧
      ∃ dc', getItem ws' c = some dc' ∧ i ∉ dc'.items := by
  have hci : c ≠ i := Ne.symm hic
  -- state after Container._erase: owner cleared, content list without i
  have eW1i : getItem (modifyItem ws i (fun x => { x with owner := none })) i
      = some { di with owner := none } := getItem_modifyItem_of_eq ws i di _ hi
  have eW1c : getItem (modifyItem ws i (fun x => { x with owner := none })) c
      = some dc := by
    rw [getItem_modifyItem_ne _ i c _ hic]; exact hc
  have eW2i : getItem (modifyItem
        (modifyItem ws i (fun x => { x with owner := none })) c
        (fun x => { x with items := x.items.erase i })) i
      = some { di with owner := none } := by
    rw [getItem_modifyItem_ne _ c i _ hci]; exact eW1i
  have eW2c : getItem (modifyItem
        (modifyItem ws i (fun x => { x with owner := none })) c
        (fun x => { x with items := x.items.erase i })) c
      = some { dc with items := dc.items.erase i } :=
    getItem_modifyItem_of_eq _ c dc _ eW1c
  -- Container.remove on the open unlocked container
  have hrem : containerRemove ws c i =
      (modifyItem (modifyItem ws i (fun x => { x with owner := none })) c
        (fun x => { x with items := x.items.erase i }),
       [ctxt_REMOVE di.name dc.name]) := by
    simp only [containerRemove, hc, hmem, hlock, hopen, Bool.not_true,
      Bool.false_eq_true, if_false, if_true, containerErase]
    rw [show itemName (modifyItem
        (modifyItem ws i (fun x => { x with owner := none })) c
        (fun x => { x with items := x.items.erase i })) i =
      ((getItem (modifyItem
        (modifyItem ws i (fun x => { x with owner := none })) c
        (fun x => { x with items := x.items.erase i })) i).map
          (fun d => d.name)).getD "" from rfl, eW2i]
    rfl
  -- AbstractRoom.remove on the room (the item is not a container)
  have hW2room : getRoom (modifyItem
      (modifyItem ws i (fun x => { x with owner := none })) c
      (fun x => { x with items := x.items.erase i })) r = some rd := hr
  have hncont2 : ({ di with owner := none } : ItemData).container = false := hncont
  have hrem2 : roomRemove (itemFuel (modifyItem
        (modifyItem ws i (fun x => { x with owner := none })) c
        (fun x => { x with items := x.items.erase i })))
      (modifyItem (modifyItem ws i (fun x => { x with owner := none })) c
        (fun x => { x with items := x.items.erase i })) r i =
      some (modifyRoom (modifyItem
        (modifyItem (modifyItem ws i (fun x => { x with owner := none })) c
          (fun x => { x with items := x.items.erase i }))
        i (fun x => { x with room := none })) r
        (fun x => { x with items := x.items.erase i })) :=
    roomRemove_notContainer _ _ r i rd { di with owner := none }
      hW2room hrmem eW2i hncont2
  have eW4i : getItem (modifyRoom (modifyItem
        (modifyItem (modifyItem ws i (fun x => { x with owner := none })) c
          (fun x => { x with items := x.items.erase i }))
        i (fun x => { x with room := none })) r
        (fun x => { x with items := x.items.erase i })) i =
      some { di with owner := none, room := none } := by
    rw [getItem_modifyRoom,
      getItem_modifyItem_of_eq _ i { di with owner := none } _ eW2i]
  have hplay : playerInsert (itemFuel (modifyItem
        (modifyItem ws i (fun x => { x with owner := none })) c
        (fun x => { x with items := x.items.erase i })))
      (modifyItem (modifyItem ws i (fun x => { x with owner := none })) c
        (fun x => { x with items := x.items.erase i })) i =
      some { modifyItem (modifyRoom (modifyItem
          (modifyItem (modifyItem ws i (fun x => { x with owner := none })) c
            (fun x => { x with items := x.items.erase i }))
          i (fun x => { x with room := none })) r
          (fun x => { x with items := x.items.erase i }))
        i (fun x => { x with player := true }) with
        playerInventory := (modifyRoom (modifyItem
          (modifyItem (modifyItem ws i (fun x => { x with owner := none })) c
            (fun x => { x with items := x.items.erase i }))
          i (fun x => { x with room := none })) r
          (fun x => { x with items := x.items.erase i })).playerInventory ++ [i] } :=
    playerInsert_notContainer_roomSome _ _ i r { di with owner := none } _
      { di with owner := none, room := none } eW2i hroom hrem2 eW4i hncont
  -- the whole take
  have hTake : playerTake ws i =
      some ({ modifyItem (modifyRoom (modifyItem
          (modifyItem (modifyItem ws i (fun x => { x with owner := none })) c
            (fun x => { x with items := x.items.erase i }))
          i (fun x => { x with room := none })) r
          (fun x => { x with items := x.items.erase i }))
        i (fun x => { x with player := true }) with
        playerInventory := (modifyRoom (modifyItem
          (modifyItem (modifyItem ws i (fun x => { x with owner := none })) c
            (fun x => { x with items := x.items.erase i }))
          i (fun x => { x with room := none })) r
          (fun x => { x with items := x.items.erase i })).playerInventory ++ [i] },
       [ctxt_REMOVE di.name dc.name, ptxt_TAKE di.name]) := by
    simp only [playerTake, hi, hown, hc, hinv, hlock, hopen, hninv, hrem, hplay,
      Bool.not_true, Bool.false_eq_true, if_false, Option.bind_eq_bind,
      Option.some_bind, List.nil_append]
    rfl
  refine ⟨_, _, hTake, ?_, ?_, ⟨{ dc with items := dc.items.erase i }, ?_, ?_⟩⟩
  · rw [getItem_setInventory,
      getItem_modifyItem_of_eq _ i { di with owner := none, room := none } _ eW4i]
  · show i ∈ (modifyRoom (modifyItem
        (modifyItem (modifyItem ws i (fun x => { x with owner := none })) c
          (fun x => { x with items := x.items.erase i }))
        i (fun x => { x with room := none })) r
        (fun x => { x with items := x.items.erase i })).playerInventory ++ [i]
    exact List.mem_append_right _ (List.mem_singleton_self i)
  · rw [getItem_setInventory, getItem_modifyItem_ne _ i c _ hic,
      getItem_modifyRoom, getItem_modifyItem_ne _ i c _ hic]
    exact eW2c
  · intro hmm
    have hpos := List.count_pos_iff.mpr hmm
    rw [List.count_erase_self] at hpos
    omega

/-- C7 witness: taking the gem out of the open chest in the demo cave. -/
theorem claim_C7_witness :
    ∃ ws' msgs, playerTake demoWS 0 = some (ws', msgs) ∧
      getItem ws' 0 =
        some { gemItem with owner := none, room := none, player := true } ∧
      0 ∈ ws'.playerInventory ∧
      ∃ dc', getItem ws' 1 = some dc' ∧ 0 ∉ dc'.items :=
  claim_C7 demoWS 0 1 0 gemItem chestItem caveRoom (by decide) rfl rfl rfl
    rfl rfl rfl rfl rfl rfl rfl (by decide) rfl rfl

/-- C5 (amended): `put` fails fast with one message per failing check, the
container is unchanged on every failure, and the checks run in the code's
order: item not found, container not found, container not a container, item
already owned (by any container — `Container.add` tests `item.owner` before
anything else), item already in the content list, item not containable,
container locked, container closed. -/
theorem claim_C5 (ws : WorldState) (item_name container_name : String) :
    (resolveName ws item_name = none →
      putExecute ws item_name container_name =
        some (ws, [put_NO_ITEM item_name (roomName ws ws.playerLocation)])) ∧
    (∀ i, resolveName ws item_name = some i →
      resolveName ws container_name = none →
      putExecute ws item_name container_name =
        some (ws,
          [put_NO_CONTAINER container_name (roomName ws ws.playerLocation)])) ∧
    (∀ i c cd, resolveName ws item_name = some i →
      resolveName ws container_name = some c → getItem ws c = some cd →
      cd.container = false →
      putExecute ws item_name container_name =
        some (ws, [put_NOT_CONTAINER container_name])) ∧
    (∀ i c cd d o, resolveName ws item_name = some i →
      resolveName ws container_name = some c → getItem ws c = some cd →
      cd.container = true → getItem ws i = some d → d.owner = some o →
      putExecute ws item_name container_name =
        some (ws, [ctxt_ADD_CONTAINED d.name (itemName ws o)])) ∧
    (∀ i c cd d, resolveName ws item_name = some i →
      resolveName ws container_name = some c → getItem ws c = some cd →
      cd.container = true → getItem ws i = some d → d.owner = none →
      i ∈ cd.items →
      putExecute ws item_name container_name =
        some (ws, [ctxt_ALREADY_ADDED d.name cd.name])) ∧
    (∀ i c cd d, resolveName ws item_name = some i →
      resolveName ws container_name = some c → getItem ws c = some cd →
      cd.container = true → getItem ws i = some d → d.owner = none →
      i ∉ cd.items → d.containable = false →
      putExecute ws item_name container_name =
        some (ws, [ctxt_ADD_NOT_CONTAINABLE d.name cd.name])) ∧
    (∀ i c cd d, resolveName ws item_name = some i →
      resolveName ws container_name = some c → getItem ws c = some cd →
      cd.container = true → getItem ws i = some d → d.owner = none →
      i ∉ cd.items → d.containable = true → cd.locked = true →
      putExecute ws item_name container_name =
        some (ws, [ctxt_ADD_LOCKED d.name cd.name])) ∧
    (∀ i c cd d, resolveName ws item_name = some i →
      resolveName ws container_name = some c → getItem ws c = some cd →
      cd.container = true → getItem ws i = some d → d.owner = none →
      i ∉ cd.items → d.containable = true → cd.locked = false →
      cd.opened = false →
      putExecute ws item_name container_name =
        some (ws, [ctxt_CLOSED cd.name])) := by
  refine ⟨?_, ?_, ?_, ?_, ?_, ?_, ?_, ?_⟩
  · intro hri
    cases hrc : resolveName ws container_name with
    | none => simp [putExecute, hri, hrc]
    | some c => simp [putExecute, hri, hrc]
  · intro i hri hrc
    simp [putExecute, hri, hrc]
  · intro i c cd hri hrc hcd hcont
    simp [putExecute, hri, hrc, hcd, hcont]
  · intro i c cd d o hri hrc hcd hcont hd how
    simp [putExecute, hri, hrc, hcd, hcont, containerAdd, hd, how]
  · intro i c cd d hri hrc hcd hcont hd how hmem
    simp [putExecute, hri, hrc, hcd, hcont, containerAdd, hd, how, hmem]
  · intro i c cd d hri hrc hcd hcont hd how hmem hble
    simp [putExecute, hri, hrc, hcd, hcont, containerAdd, hd, how, hmem, hble]
  · intro i c cd d hri hrc hcd hcont hd how hmem hble hlk
    simp [putExecute, hri, hrc, hcd, hcont, containerAdd, hd, how, hmem, hble, hlk]
  · intro i c cd d hri hrc hcd hcont hd how hmem hble hlk hop
    simp [putExecute, hri, hrc, hcd, hcont, containerAdd, hd, how, hmem, hble,
      hlk, hop]

/-- C5 counterexample: in the demo world the gem is owned by the chest and
the coffer is locked, so both the "container locked" and the "item already
owned elsewhere" conditions hold; the claim's order demands the locked
message first, but the code reports the ownership message. -/
theorem claim_C5_cx :
    cofferItem.locked = true ∧ gemItem.owner = some 1 ∧
    putExecute demoWS "gem" "coffer" =
      some (demoWS, [ctxt_ADD_CONTAINED "gem" "chest"]) ∧
    ctxt_ADD_CONTAINED "gem" "chest" ≠ ctxt_ADD_LOCKED "gem" "coffer" := by
  refine ⟨rfl, rfl, rfl, ?_⟩
  decide

/-- C5 witness: putting the loose pebble into the locked coffer is refused
with the per-case locked message and an unchanged world. -/
theorem claim_C5_witness :
    putExecute demoWS "pebble" "coffer" =
      some (demoWS, [ctxt_ADD_LOCKED "pebble" "coffer"]) :=
  (claim_C5 demoWS "pebble" "coffer").2.2.2.2.2.2.1 5 3 cofferItem pebbleItem
    rfl rfl rfl rfl rfl rfl (by decide) rfl rfl

/-- A hit of the name-or-synonym scan (`AbstractRoom.get` and `Player.get`
share it verbatim) names an entity of the scanned list whose primary name
equals the query or whose synonyms contain it. -/
theorem findMatch_spec (ws : WorldState) (xs : List Nat) (n : String) (i : Nat)
    (h : xs.find? (fun i =>
      match getItem ws i with
      | some d => d.name == n || d.synonyms.contains n
      | none => false) = some i) :
    i ∈ xs ∧ ∃ d, getItem ws i = some d ∧ (d.name = n ∨ n ∈ d.synonyms) := by
  refine ⟨List.mem_of_find?_eq_some h, ?_⟩
  have hp := List.find?_some h
  cases hd : getItem ws i with
  | none => rw [hd] at hp; simp at hp
  | some d =>
    rw [hd] at hp
    refine ⟨d, rfl, ?_⟩
    simpa using hp

/-- Every entity of the scanned list whose primary name equals the query, or
whose synonyms contain it, makes the name-or-synonym scan succeed. -/
theorem findMatch_isSome (ws : WorldState) (xs : List Nat) (n : String) (i : Nat)
    (hmem : i ∈ xs) (d : ItemData) (hd : getItem ws i = some d)
    (hmatch : d.name = n ∨ n ∈ d.synonyms) :
    (xs.find? (fun i =>
      match getItem ws i with
      | some d => d.name == n || d.synonyms.contains n
      | none => false)).isSome = true := by
  rw [List.find?_isSome]
  refine ⟨i, hmem, ?_⟩
  rw [hd]
  simpa using hmatch

/-- C6 (amended): a room or inventory lookup resolves a name exactly when it
equals an entity's primary name or one of its synonyms — whatever it returns
matched that way, and the presence of any matching entity in the scanned
scope guarantees a hit — and the commands' shared resolution tries the
current room before the player's inventory; the `remove` command, however,
matches the stated container against the owner's primary name only — a
synonym of the container is rejected with the not-in-container message and
no state change, while the primary name goes through to `Container.remove`. -/
theorem claim_C6 (ws : WorldState) :
    (∀ r rd n i, getRoom ws r = some rd → roomGet ws r n = some i →
      i ∈ rd.items ∧
        ∃ d, getItem ws i = some d ∧ (d.name = n ∨ n ∈ d.synonyms)) ∧
    (∀ r rd n i d, getRoom ws r = some rd → i ∈ rd.items →
      getItem ws i = some d → (d.name = n ∨ n ∈ d.synonyms) →
      (roomGet ws r n).isSome = true) ∧
    (∀ n i, playerGet ws n = some i →
      i ∈ ws.playerInventory ∧
        ∃ d, getItem ws i = some d ∧ (d.name = n ∨ n ∈ d.synonyms)) ∧
    (∀ n i d, i ∈ ws.playerInventory → getItem ws i = some d →
      (d.name = n ∨ n ∈ d.synonyms) → (playerGet ws n).isSome = true) ∧
    (∀ n i, roomGet ws ws.playerLocation n = some i →
      resolveName ws n = some i) ∧
    (∀ n, roomGet ws ws.playerLocation n = none →
      resolveName ws n = playerGet ws n) ∧
    (∀ item_name container_name i d o, resolveName ws item_name = some i →
      getItem ws i = some d → d.owner = some o →
      itemName ws o = container_name →
      removeExecute ws item_name container_name =
        some (containerRemove ws o i)) ∧
    (∀ item_name container_name i d o, resolveName ws item_name = some i →
      getItem ws i = some d → d.owner = some o →
      itemName ws o ≠ container_name →
      removeExecute ws item_name container_name =
        some (ws, [removecmd_NO_CONTAINER item_name container_name])) := by
  refine ⟨?_, ?_, ?_, ?_, ?_, ?_, ?_, ?_⟩
  · intro r rd n i hr hg
    simp only [roomGet, hr] at hg
    exact findMatch_spec ws rd.items n i hg
  · intro r rd n i d hr hmem hd hmatch
    simp only [roomGet, hr]
    exact findMatch_isSome ws rd.items n i hmem d hd hmatch
  · intro n i hg
    simp only [playerGet] at hg
    exact findMatch_spec ws ws.playerInventory n i hg
  · intro n i d hmem hd hmatch
    simp only [playerGet]
    exact findMatch_isSome ws ws.playerInventory n i hmem d hd hmatch
  · intro n i hg
    simp [resolveName, hg]
  · intro n hg
    simp [resolveName, hg]
  · intro item_name container_name i d o hri hd how hname
    simp [removeExecute, hri, hd, how, hname]
  · intro item_name container_name i d o hri hd how hname
    simp [removeExecute, hri, hd, how, hname]

/-- C6 counterexample: "box" is a synonym of the chest that owns the gem,
yet `remove gem out of box` is refused with the not-in-container message
and an unchanged world, while the primary name "chest" removes the gem and
mutates the state — a synonym is not accepted like the primary name. -/
theorem claim_C6_cx :
    "box" ∈ chestItem.synonyms ∧ gemItem.owner = some 1 ∧
    itemName demoWS 1 = "chest" ∧
    removeExecute demoWS "gem" "box" =
      some (demoWS, [removecmd_NO_CONTAINER "gem" "box"]) ∧
    removeExecute demoWS "gem" "chest" = some (containerRemove demoWS 1 0) ∧
    (containerRemove demoWS 1 0).1 ≠ demoWS := by
  refine ⟨by decide, rfl, rfl, rfl, rfl, ?_⟩
  decide

/-- C6 witness: the synonyms actually resolve — "box" (a chest synonym)
makes the room lookup succeed and resolves to the chest, "jewel" (a gem
synonym) resolves to the gem — and removing the gem with the owner's
primary name goes through to `Container.remove`. -/
theorem claim_C6_witness :
    (roomGet demoWS 0 "box").isSome = true ∧
    resolveName demoWS "box" = some 1 ∧
    resolveName demoWS "jewel" = some 0 ∧
    removeExecute demoWS "gem" "chest" = some (containerRemove demoWS 1 0) :=
  ⟨(claim_C6 demoWS).2.1 0 caveRoom "box" 1 chestItem rfl (by decide) rfl
      (Or.inr (by decide)),
   (claim_C6 demoWS).2.2.2.2.1 "box" 1 rfl,
   (claim_C6 demoWS).2.2.2.2.1 "jewel" 0 rfl,
   (claim_C6 demoWS).2.2.2.2.2.2.1 "gem" "chest" 0 gemItem 1 rfl rfl rfl rfl⟩

end Conworld
